import Mathlib

/-!
Verification development for the carholo 3D showcase (src/main.js):
a shallow embedding of the part-hover/selection targeting logic, the
highlight state handling, the status classifier and the bounding-box
reveal animation, with theorems checking the specification's claims.

Conventions of the embedding:
* JS strings are Lean `String`s; a mesh UUID is carried as the list of
  its UTF-16 character codes (`List Nat`), which is what
  `split('').reduce(... charCodeAt(0) ...)` consumes.
* JS 32-bit signed integer wrap-around (`x & x`, `x << 5`) is modelled
  on `Int` with an explicit reduction into `[-2^31, 2^31)`.
* Times, scales and geometric magnitudes are rationals (`ℚ`); the
  animation and filter code uses only field arithmetic and comparisons.
* Scene state that the handlers read and mutate (the module-level
  globals of main.js) is collected in one structure `IState`; the event
  handlers become pure functions `IState → IState`, parameterised by
  the per-event inputs (the raycaster's nearest-first intersection
  list, pointer coordinates, wall-clock time).
-/

/-! ## JS 32-bit integer arithmetic and the uuid hash -/

/-- Reduction of an integer into the signed 32-bit range, the effect of
JavaScript's `x & x` (ToInt32) on an intermediate numeric value. -/
def toInt32 (z : ℤ) : ℤ :=
  (z + 2 ^ 31) % 2 ^ 32 - 2 ^ 31

/-- One step of the uuid hash reduce loop in main.js:
`a = ((a << 5) - a) + b.charCodeAt(0); return a & a;`.
`a << 5` first wraps `a * 32` to 32 bits; the subtraction and addition
are exact (they stay far below 2^53); `a & a` wraps the result. -/
def jsHashStep (a : ℤ) (c : ℕ) : ℤ :=
  toInt32 (toInt32 (a * 32) - a + c)

/-- The uuid hash as computed at the hover site of `onMouseMove`
(main.js, "Create deterministic status based on part characteristics"). -/
def jsHashHover (uuid : List ℕ) : ℤ :=
  uuid.foldl jsHashStep 0

/-- The uuid hash as computed in `getPartMenuOptions` when the part menu
is built (textually the same reduce loop). -/
def jsHashMenu (uuid : List ℕ) : ℤ :=
  uuid.foldl jsHashStep 0

/-- The uuid hash as computed in `animate` when the particle cloud is
tinted each frame (textually the same reduce loop). -/
def jsHashParticle (uuid : List ℕ) : ℤ :=
  uuid.foldl jsHashStep 0

/-- Status category at the hover site: `Math.abs(hash) % 3`. -/
def statusCategoryHover (uuid : List ℕ) : ℕ :=
  (jsHashHover uuid).natAbs % 3

/-- Status category at the part-menu site. -/
def statusCategoryMenu (uuid : List ℕ) : ℕ :=
  (jsHashMenu uuid).natAbs % 3

/-- Status category at the particle-tint site. -/
def statusCategoryParticle (uuid : List ℕ) : ℕ :=
  (jsHashParticle uuid).natAbs % 3

/-! ## JS string helpers: `toLowerCase` and `includes` -/

/-- Boolean test that the first list of characters starts the second. -/
def charsStartWith : List Char → List Char → Bool
  | [], _ => true
  | _ :: _, [] => false
  | p :: ps, c :: cs => (p = c) && charsStartWith ps cs

/-- Boolean test that the first list of characters occurs inside the
second; the computational content of JavaScript `String.includes`. -/
def charsContain (pat : List Char) : List Char → Bool
  | [] => charsStartWith pat []
  | c :: cs => charsStartWith pat (c :: cs) || charsContain pat cs

/-- JavaScript `s.includes(pat)`. -/
def jsIncludes (s pat : String) : Bool :=
  charsContain pat.data s.data

/-- JavaScript `s.toLowerCase()` (on the ASCII names used in the scene). -/
def strLower (s : String) : String :=
  String.mk (s.data.map Char.toLower)

/-! ## Status strings and colors (hover tooltip vs particle tint) -/

/-- The good status strings of the hover site. -/
def goodStatuses : List String :=
  ["Status: Operational", "Status: Excellent", "Status: Good Condition",
   "Status: Optimal Performance"]

/-- The warning status strings of the hover site. -/
def warningStatuses : List String :=
  ["Status: Requires Maintenance", "Status: Warning - Check Soon"]

/-- The neutral status strings of the hover site. -/
def neutralStatuses : List String :=
  ["Status: Needs Inspection", "Status: Minor Wear"]

/-- The `randomStatus` string picked at the hover site from the absolute
hash value `n`: category `n % 3`, then an index into the category's
string list by `n %` its length. -/
def randomStatusN (n : ℕ) : String :=
  let cat := n % 3
  if cat = 0 then goodStatuses.getD (n % goodStatuses.length) ""
  else if cat = 1 then warningStatuses.getD (n % warningStatuses.length) ""
  else neutralStatuses.getD (n % neutralStatuses.length) ""

/-- The wireframe/status color the hover site derives by substring tests
on the chosen status string (red for maintenance or warning, green for
the good family, default yellow). -/
def hoverStatusColorN (n : ℕ) : ℕ :=
  let st := randomStatusN n
  if jsIncludes st "Maintenance" || jsIncludes st "Warning" then 0xff4444
  else if jsIncludes st "Operational" || jsIncludes st "Excellent" ||
       jsIncludes st "Good Condition" || jsIncludes st "Optimal" then 0x44ff44
  else 0xffd700

/-- The particle tint color in `animate`, selected directly from the
status category (0 green, 1 red, otherwise yellow). -/
def particleColorN (n : ℕ) : ℕ :=
  let cat := n % 3
  if cat = 0 then 0x44ff44
  else if cat = 1 then 0xff4444
  else 0xffd700

/-- Hover-site status color of a uuid. -/
def hoverStatusColor (uuid : List ℕ) : ℕ :=
  hoverStatusColorN (jsHashHover uuid).natAbs

/-- Particle tint color of a uuid. -/
def particleTargetColor (uuid : List ℕ) : ℕ :=
  particleColorN (jsHashParticle uuid).natAbs

/-! ## Target filter (isValidHoverTarget / isValidClickTarget)

A raycast candidate is summarised by the data the two filters inspect:
the mesh flag, its ancestry chain (the node itself followed by its
parents, as walked by the `while (n) ... n = n.parent` loop), the
world-space bounding box size components and center distance from the
origin, and the geometry's vertex count. -/

/-- One node of the ancestry chain: the `userData.isHelper` flag, the
node's `name`, and identity with the two excluded groups. -/
structure ChainNode where
  isHelperFlag : Bool
  name : String
  isOrbitsGroup : Bool
  isScatteredCrossGroup : Bool
deriving DecidableEq, Repr

/-- A raycast intersection candidate as seen by the filters (scene data
snapshotted at event time; `centerDist` is the world bounding box
center's distance from the origin, `size*` its dimensions). -/
structure PickNode where
  nid : ℕ
  uuid : List ℕ
  name : String
  isMesh : Bool
  chain : List ChainNode
  sizeX : ℚ
  sizeY : ℚ
  sizeZ : ℚ
  centerDist : ℚ
  vertCount : ℕ
deriving DecidableEq, Repr

/-- The per-node test of the ancestry loop:
`n.userData?.isHelper`, then the five lowercased `name` substrings,
then identity with `orbitsGroup` / `scatteredCrossGroup`. -/
def chainNodeRejects (n : ChainNode) : Bool :=
  n.isHelperFlag ||
  (let nm := strLower n.name
   jsIncludes nm "reference" || jsIncludes nm "ghostpointcloud" ||
   jsIncludes nm "bounding" || jsIncludes nm "hoverlight" ||
   jsIncludes nm "podium") ||
  n.isOrbitsGroup || n.isScatteredCrossGroup

/-- The whole `while (n) { ... n = n.parent }` loop: the candidate is
rejected when any chain node trips a check. -/
def chainRejected (c : List ChainNode) : Bool :=
  c.any chainNodeRejects

/-- The geometric-degeneracy rejection shared by both filters:
`(nearOrigin && verySmall) || tooFewVerts` with
`nearOrigin = center.length() < modelMaxDimension * 0.05`,
`verySmall = largest < modelMaxDimension * 0.03`,
`tooFewVerts = vertCount > 0 && vertCount < 30`. -/
def geomDegenerateReject (mm : ℚ) (p : PickNode) : Bool :=
  let largest := max (max p.sizeX p.sizeY) p.sizeZ
  let nearOrigin := p.centerDist < mm * (5 / 100)
  let verySmall := largest < mm * (3 / 100)
  let tooFewVerts := decide (0 < p.vertCount) && decide (p.vertCount < 30)
  (nearOrigin && verySmall) || tooFewVerts

/-- Transcription of `isValidHoverTarget` in `onMouseMove`: mesh check,
then the ancestry/name exclusion loop, then the geometric checks. -/
def isValidHoverTargetB (mm : ℚ) (p : PickNode) : Bool :=
  if !p.isMesh then false
  else if chainRejected p.chain then false
  else if geomDegenerateReject mm p then false
  else true

/-- Transcription of `isValidClickTarget` in `onMouseClick` (the same
checks in the same order). -/
def isValidClickTargetB (mm : ℚ) (p : PickNode) : Bool :=
  if !p.isMesh then false
  else if chainRejected p.chain then false
  else if geomDegenerateReject mm p then false
  else true

/-- The pick step: `raycaster.intersectObject(porscheModel, true)` runs
only when the model root is populated; with no scene root there are no
intersections. `L` is the nearest-first intersection list the raycaster
would produce. -/
def pick (modelLoaded : Bool) (L : List PickNode) : List PickNode :=
  if modelLoaded then L else []

/-! ## Material slots and the hover-exit restore block (for claim C1)

Materials are modelled with the object identity (`matId`), the
`wireframe` flag, and a `disposed` flag recording a `dispose()` call.
`clone()` yields a live copy of the value. A mesh's `.material` is
either a single material or an array of materials. -/

/-- A three.js material as far as the restore block observes it. -/
structure JMat where
  matId : ℕ
  wireframe : Bool
  disposed : Bool
deriving DecidableEq, Repr

/-- JavaScript `material.clone()`: a fresh, non-disposed copy. -/
def cloneJ (m : JMat) : JMat :=
  { m with disposed := false }

/-- A mesh's `.material` slot: single material or array of materials. -/
inductive JSlot where
  | single (m : JMat)
  | arr (ms : List JMat)
deriving DecidableEq, Repr

/-- Transcription of the "Restore previous hovered mesh" block in the
new-hover path of `onMouseMove` (main.js). For an array material the
code runs
`hoveredMesh.material.forEach((m, i) => { if (original[i]) { m.dispose(); m = original[i].clone(); } })`:
the element is disposed in place and the clone is assigned to the
forEach parameter `m`, a local variable, so the array slot itself is
never written. For a single material the code runs
`material.dispose(); material = original.clone();`. -/
def restorePrevMaterial : JSlot → JSlot → JSlot
  | JSlot.arr ms, JSlot.arr os =>
      JSlot.arr (ms.enum.map fun p =>
        if p.1 < os.length then { p.2 with disposed := true } else p.2)
  | JSlot.single _, JSlot.single o => JSlot.single (cloneJ o)
  | s, _ => s

/-! ## Interaction state (the module-level globals of main.js)

For the state-machine claims the per-mesh material is tracked at value
level (single materials; the array slip is covered by
`restorePrevMaterial` above): an original base material, the hover
wireframe with its status color, or the menu emissive version. -/

/-- Mesh material as the interaction handlers rewrite it. -/
inductive MMat where
  | base (n : ℕ)
  | wire (color : ℕ)
  | emiss (color : ℕ)
deriving DecidableEq, Repr

/-- The bounding-box helper (`boundingBoxHelper`): which mesh owns it
and its current uniform scale. -/
structure BBHelper where
  owner : ℕ
  scale : ℚ
deriving DecidableEq, Repr

/-- One corner-indicator cross tracked by
`boundingBoxAnimation.cornerIndicators`. -/
structure Corner where
  owner : ℕ
  scale : ℚ
deriving DecidableEq, Repr

/-- The `boundingBoxAnimation` record (its corner list is the
`animCorners` field of `IState`). `duration` stays at its initial
value 200 for the whole session, see `bbDuration`. -/
structure AnimState where
  isAnimating : Bool
  startTime : ℚ
  startScale : ℚ
  targetScale : ℚ
  currentScale : ℚ
deriving DecidableEq, Repr

/-- The animation duration: initialised to 200 ms and never written. -/
def bbDuration : ℚ := 200

/-- The interaction-relevant globals of main.js in one record. -/
structure IState where
  hovered : Option ℕ
  clicked : Option ℕ
  menuVisible : Bool
  mats : ℕ → MMat
  origMat : ℕ → Option MMat
  clickedOrig : Option MMat
  autoRotate : Bool
  autoRotateSaved : Bool
  follow : ℚ × ℚ
  helper : Option BBHelper
  animCorners : List Corner
  anim : AnimState
  mouse : ℚ × ℚ

/-- Per-session environment: whether the model finished loading
(`porscheModel` non-null), `modelMaxDimension`, and the window size. -/
structure Env where
  modelLoaded : Bool
  modelMax : ℚ
  winW : ℚ
  winH : ℚ

/-- What `event.target` resolves to for a click: the 3D canvas, the
menu backdrop, or some other UI control of the overlay list. -/
inductive ClickTarget where
  | canvas
  | backdrop
  | otherUI
deriving DecidableEq, Repr

/-- The `easeOut` function of main.js: `1 - Math.pow(1 - t, 3)`. -/
def easeOutCubic (t : ℚ) : ℚ :=
  1 - (1 - t) ^ 3

/-- Transcription of `startBoundingBoxAnimation`: restart the single
animation job at `now` with scales 0 → 1 and clear the corner list. -/
def startBBAnim (now : ℚ) (s : IState) : IState :=
  { s with
    anim := { isAnimating := true, startTime := now, startScale := 0,
              targetScale := 1, currentScale := 0 },
    animCorners := [] }

/-- The menu mouse-follow target of the `menuVisible` branch of
`onMouseMove`: pointer offset from the window center, normalised to
[-1, 1] and scaled by `MENU_MOUSE_FOLLOW_STRENGTH = 15`. -/
def menuFollowTargetOf (w h x y : ℚ) : ℚ × ℚ :=
  (((x - w / 2) / (w / 2)) * 15, ((y - h / 2) / (h / 2)) * 15)

/-- Hover exit, as performed both by the "mouse not over anything"
branch and the plateau branch of `onMouseMove`: restore the hovered
mesh's original material (when one is stored) and null the stored
original, drop the bounding-box helper and the scene corner
indicators, clear `hoveredMesh`. `boundingBoxAnimation.cornerIndicators`
is not cleared here (only `startBoundingBoxAnimation` clears it); the
helper being gone already disables further ticks. -/
def clearHover (s : IState) : IState :=
  let s₀ := match s.hovered with
    | some prev =>
        match s.origMat prev with
        | some o =>
            { s with mats := Function.update s.mats prev o,
                     origMat := Function.update s.origMat prev none }
        | none => s
    | none => s
  { s₀ with hovered := none, helper := none }

/-- Hover enter on a new mesh (the `currentHovered !== hoveredMesh`
path of `onMouseMove`): restore the previous hovered mesh from its
stored original (this path does not null the stored original), take
over as `hoveredMesh`, store the current material as original, switch
to the status-colored wireframe, rebuild the bounding-box helper at
scale 0, restart the reveal animation, and create the eight corner
crosses at scale 0. -/
def hoverEnter (pk : PickNode) (now : ℚ) (s : IState) : IState :=
  let col := hoverStatusColor pk.uuid
  let s₀ := match s.hovered with
    | some prev =>
        match s.origMat prev with
        | some o => { s with mats := Function.update s.mats prev o }
        | none => s
    | none => s
  let s₁ :=
    { s₀ with
      hovered := some pk.nid,
      origMat := Function.update s₀.origMat pk.nid (some (s₀.mats pk.nid)),
      mats := Function.update s₀.mats pk.nid (MMat.wire col),
      helper := some { owner := pk.nid, scale := 0 } }
  let s₂ := startBBAnim now s₁
  { s₂ with animCorners := List.replicate 8 { owner := pk.nid, scale := 0 } }

/-- Transcription of `onMouseMove`. When the menu is open: update the
follow target, clear a stale hover (one differing from the clicked
mesh) and return. Otherwise update the normalised mouse coordinates
and, when the model is loaded, take the first intersection passing
`isValidHoverTarget`; a `plateau` name is treated as no hover; a new
mesh triggers the enter path; no valid intersection triggers the exit
path. -/
def onMouseMove (e : Env) (now : ℚ) (L : List PickNode) (x y : ℚ)
    (s : IState) : IState :=
  if s.menuVisible then
    let s₁ := { s with follow := menuFollowTargetOf e.winW e.winH x y }
    if s₁.hovered ≠ none ∧ s₁.hovered ≠ s₁.clicked then clearHover s₁ else s₁
  else
    let s₁ := { s with
      mouse := (x / e.winW * 2 - 1, -(y / e.winH) * 2 + 1) }
    if e.modelLoaded then
      match (pick e.modelLoaded L).find? (fun p => isValidHoverTargetB e.modelMax p) with
      | some pk =>
          if jsIncludes (strLower pk.name) "plateau" then clearHover s₁
          else if s₁.hovered ≠ some pk.nid then hoverEnter pk now s₁
          else s₁
      | none => clearHover s₁
    else s₁

/-- The emissive-material step of `showPartMenu`: keep the material if
it already carries the status emissive (the hover wireframe with the
same status color does, since both sites hash the same uuid); a
wireframe with another color is replaced by a fresh wireframe in the
status color; otherwise the clone gets the status emissive. -/
def applyMenuMaterial (c : ℕ) (m : MMat) : MMat :=
  match m with
  | MMat.wire c' => if c' = c then m else MMat.wire c
  | MMat.emiss c' => if c' = c then m else MMat.emiss c
  | MMat.base _ => MMat.emiss c

/-- The status color `showPartMenu` computes directly from the hash
category (1 red, 0 green, otherwise yellow). -/
def menuStatusColor (uuid : List ℕ) : ℕ :=
  let cat := (jsHashMenu uuid).natAbs % 3
  if cat = 1 then 0xff4444
  else if cat = 0 then 0x44ff44
  else 0xffd700

/-- Transcription of `showPartMenu` (interaction-relevant effects):
save and pause auto-rotation, store the clicked mesh's original
material (preferring a stored hover original) unless one is already
stored, apply the status emissive, and mark the menu visible. Camera
focus, sound and DOM construction are cosmetic collaborators. -/
def showPartMenu (pk : PickNode) (s : IState) : IState :=
  let s₀ := { s with autoRotateSaved := s.autoRotate, autoRotate := false }
  let stored := match s₀.clickedOrig with
    | some o => some o
    | none =>
        match s₀.origMat pk.nid with
        | some o => some o
        | none => some (s₀.mats pk.nid)
  let col := menuStatusColor pk.uuid
  let s₁ :=
    { s₀ with
      clickedOrig := stored,
      mats := Function.update s₀.mats pk.nid (applyMenuMaterial col (s₀.mats pk.nid)) }
  { s₁ with menuVisible := true }

/-- Transcription of the state effects of `hidePartMenu` (the
`onComplete` callback of its close animation): hide the menu, restore
the clicked mesh's material from the stored original unless it is the
currently hovered mesh, null the stored original, clear `clickedMesh`,
resume auto-rotation to the state saved when the menu opened, and
reset the menu follow offset. -/
def hidePartMenu (s : IState) : IState :=
  let s₀ := { s with menuVisible := false }
  let s₁ := match s₀.clicked with
    | some c =>
        match s₀.clickedOrig with
        | some o =>
            let s' := if s₀.hovered ≠ some c
              then { s₀ with mats := Function.update s₀.mats c o }
              else s₀
            { s' with clickedOrig := none }
        | none => s₀
    | none => s₀
  let s₂ := { s₁ with clicked := none }
  { s₂ with autoRotate := s₂.autoRotateSaved, follow := (0, 0) }

/-- Transcription of `onMouseClick`. A click on a listed UI element
returns at once, except that the backdrop triggers `hidePartMenu`; a
scene click while the menu is open returns before any raycast;
`blocked` summarises the drag/time/camera-rotation guard; otherwise,
when the model is loaded, the first intersection passing
`isValidClickTarget` becomes `clickedMesh` and opens the menu. -/
def onMouseClick (e : Env) (tgt : ClickTarget) (L : List PickNode)
    (blocked : Bool) (s : IState) : IState :=
  match tgt with
  | ClickTarget.backdrop => hidePartMenu s
  | ClickTarget.otherUI => s
  | ClickTarget.canvas =>
      if s.menuVisible then s
      else if blocked then s
      else if e.modelLoaded then
        match (pick e.modelLoaded L).find? (fun p => isValidClickTargetB e.modelMax p) with
        | some pk => showPartMenu pk { s with clicked := some pk.nid }
        | none => s
      else s

/-- Transcription of the Escape handler:
`if (event.key === 'Escape' && menuVisible) hidePartMenu();`. -/
def onKeyEscape (s : IState) : IState :=
  if s.menuVisible then hidePartMenu s else s

/-- Transcription of the bounding-box animation block of `animate`:
when a job is running and a helper exists, ease the scale with
`easeOut(min(elapsed / duration, 1))` onto the helper and all tracked
corner indicators; once progress reaches 1 the job is dropped and the
scales are snapped exactly to 1. -/
def animateBBoxTick (now : ℚ) (s : IState) : IState :=
  if s.anim.isAnimating ∧ s.helper ≠ none then
    let elapsed := now - s.anim.startTime
    let progress := min (elapsed / bbDuration) 1
    let eased := easeOutCubic progress
    let cur := s.anim.startScale + (s.anim.targetScale - s.anim.startScale) * eased
    let s₁ :=
      { s with
        anim := { s.anim with currentScale := cur },
        helper := s.helper.map fun hp => { hp with scale := cur },
        animCorners := s.animCorners.map fun c => { c with scale := cur } }
    if 1 ≤ progress then
      { s₁ with
        anim := { s₁.anim with isAnimating := false },
        helper := s₁.helper.map fun hp => { hp with scale := 1 },
        animCorners := s₁.animCorners.map fun c => { c with scale := 1 } }
    else s₁
  else s

/-- The session's initial interaction state. -/
def initState : IState :=
  { hovered := none, clicked := none, menuVisible := false,
    mats := fun n => MMat.base n, origMat := fun _ => none,
    clickedOrig := none, autoRotate := true, autoRotateSaved := true,
    follow := (0, 0), helper := none, animCorners := [],
    anim := { isAnimating := false, startTime := 0, startScale := 0,
              targetScale := 1, currentScale := 0 },
    mouse := (0, 0) }

/-- Idle in the sense of the hover/selection state machine: nothing
hovered, nothing locked, no menu open. -/
def IsIdle (s : IState) : Prop :=
  s.hovered = none ∧ s.clicked = none ∧ s.menuVisible = false

/-- Ownership invariant for claim C7: the bounding-box helper and every
tracked corner indicator belong to mesh `b`. -/
def OwnedBy (b : ℕ) (st : IState) : Prop :=
  (∀ hp, st.helper = some hp → hp.owner = b) ∧
  (∀ c ∈ st.animCorners, c.owner = b)

/-! ## Concrete fixtures (scenes and traces used by counterexamples
and witnesses) -/

/-- An ancestry-chain entry with no exclusion flags. -/
def chainPlain (nm : String) : ChainNode :=
  { isHelperFlag := false, name := nm, isOrbitsGroup := false,
    isScatteredCrossGroup := false }

/-- A loaded-scene environment with `modelMaxDimension = 100`. -/
def e0 : Env :=
  { modelLoaded := true, modelMax := 100, winW := 1000, winH := 1000 }

/-- An unloaded-scene environment. -/
def eUnloaded : Env :=
  { modelLoaded := false, modelMax := 100, winW := 1000, winH := 1000 }

/-- A large, valid car-part mesh (a door, id 1). -/
def doorNode : PickNode :=
  { nid := 1, uuid := [68], name := "door", isMesh := true,
    chain := [chainPlain "door", chainPlain "Porsche911"],
    sizeX := 20, sizeY := 10, sizeZ := 10, centerDist := 30, vertCount := 500 }

/-- Another large, valid car-part mesh (a wheel, id 2). -/
def wheelNode : PickNode :=
  { nid := 2, uuid := [87], name := "wheel", isMesh := true,
    chain := [chainPlain "wheel", chainPlain "Porsche911"],
    sizeX := 15, sizeY := 15, sizeZ := 8, centerDist := 25, vertCount := 800 }

/-- A geometrically large mesh whose name marks it as the hover light
helper, so the ancestry check must reject it before geometry is seen. -/
def helperNode : PickNode :=
  { nid := 9, uuid := [72], name := "HoverLight", isMesh := true,
    chain := [chainPlain "HoverLight"],
    sizeX := 50, sizeY := 50, sizeZ := 50, centerDist := 40, vertCount := 900 }

/-- A degenerate sliver: bounding box below `100 * 0.03` in every
dimension and centered within `100 * 0.05` of the origin. -/
def tinyNode : PickNode :=
  { nid := 5, uuid := [84], name := "frag", isMesh := true,
    chain := [chainPlain "frag"],
    sizeX := 1, sizeY := 1, sizeZ := 2, centerDist := 3, vertCount := 100 }

/-- Trace for C2's counterexample, step 1: hover lands on the wheel. -/
def cs1 : IState := onMouseMove e0 0 [wheelNode] 0 0 initState

/-- Step 2: the raycast of the click resolves the door (the model kept
auto-rotating between the two events), locking the door while the wheel
is still the hovered mesh. -/
def cs2 : IState := onMouseClick e0 ClickTarget.canvas [doorNode] false cs1

/-- Step 3: a pointer move while the menu is open. -/
def cs3 : IState := onMouseMove e0 1 [doorNode] 5 5 cs2

/-- Trace for C8's counterexample, step 1: hover lands on the door. -/
def ds1 : IState := onMouseMove e0 0 [doorNode] 0 0 initState

/-- Step 2: a click on the hovered door locks it. -/
def ds2 : IState := onMouseClick e0 ClickTarget.canvas [doorNode] false ds1

/-- Step 3: Escape closes the part menu. -/
def ds3 : IState := onKeyEscape ds2

/-- A mid-animation state for C6's witness: reveal job started at time
0, helper and one corner bound to mesh 1. -/
def wsAnim : IState :=
  { initState with
    anim := { isAnimating := true, startTime := 0, startScale := 0,
              targetScale := 1, currentScale := 0 },
    helper := some { owner := 1, scale := 0 },
    animCorners := [{ owner := 1, scale := 0 }] }

/-! ## Helper lemmas -/

/-- The 32-bit reduction lands in the signed range. -/
theorem toInt32_bounds (z : ℤ) : -2 ^ 31 ≤ toInt32 z ∧ toInt32 z < 2 ^ 31 := by
  unfold toInt32
  have h₁ : 0 ≤ (z + 2 ^ 31) % 2 ^ 32 := Int.emod_nonneg _ (by norm_num)
  have h₂ : (z + 2 ^ 31) % 2 ^ 32 < 2 ^ 32 := Int.emod_lt_of_pos _ (by norm_num)
  omega

/-- The uuid hash fold stays in the signed 32-bit range. -/
theorem jsHash_fold_bounds :
    ∀ (l : List ℕ) (a : ℤ), -2 ^ 31 ≤ a → a < 2 ^ 31 →
      -2 ^ 31 ≤ l.foldl jsHashStep a ∧ l.foldl jsHashStep a < 2 ^ 31 := by
  intro l
  induction l with
  | nil => intro a h₁ h₂; exact ⟨h₁, h₂⟩
  | cons c cs ih =>
      intro a _ _
      have hb := toInt32_bounds (toInt32 (a * 32) - a + c)
      exact ih (jsHashStep a c) hb.1 hb.2

/-- Unfolding of the hover status string through concrete list lengths. -/
theorem randomStatusN_eq (n : ℕ) :
    randomStatusN n =
      if n % 3 = 0 then goodStatuses.getD (n % 4) ""
      else if n % 3 = 1 then warningStatuses.getD (n % 2) ""
      else neutralStatuses.getD (n % 2) "" := rfl

/-- The string-derived hover color and the category-derived particle
color agree on every absolute hash value. -/
theorem hoverColorN_eq_particleColorN (n : ℕ) :
    hoverStatusColorN n = particleColorN n := by
  have h3 : n % 3 = 0 ∨ n % 3 = 1 ∨ n % 3 = 2 := by omega
  have h4 : n % 4 = 0 ∨ n % 4 = 1 ∨ n % 4 = 2 ∨ n % 4 = 3 := by omega
  have h2 : n % 2 = 0 ∨ n % 2 = 1 := by omega
  unfold hoverStatusColorN particleColorN
  rw [randomStatusN_eq]
  rcases h3 with h3 | h3 | h3 <;> rcases h4 with h4 | h4 | h4 | h4 <;>
    rcases h2 with h2 | h2 <;> simp only [h3, h4, h2] <;> decide

/-- Characterisation of `List.find?`: the result passes the predicate
and everything before it fails. -/
theorem findFirst_spec {α : Type} (f : α → Bool) :
    ∀ (L : List α) (q : α), L.find? f = some q →
      f q = true ∧ ∃ L₁ L₂, L = L₁ ++ q :: L₂ ∧ ∀ r ∈ L₁, f r = false := by
  intro L
  induction L with
  | nil => intro q h; simp [List.find?] at h
  | cons a as ih =>
      intro q h
      by_cases hfa : f a = true
      · rw [List.find?_cons_of_pos _ hfa] at h
        injection h with h'
        subst h'
        exact ⟨hfa, [], as, rfl, by simp⟩
      · rw [List.find?_cons_of_neg _ (by simpa using hfa)] at h
        obtain ⟨hq, L₁, L₂, hL, hall⟩ := ih q h
        refine ⟨hq, a :: L₁, L₂, by rw [hL]; rfl, ?_⟩
        intro r hr
        rcases List.mem_cons.mp hr with hr | hr
        · subst hr; simpa using hfa
        · exact hall r hr

/-! ## Claim theorems -/

/-- Claim C1 (code bug): when the hovered mesh carries an array of
materials, the hover-exit restore block does not reverse the highlight.
The forEach callback disposes each array element in place and assigns
the restored clone to its local parameter, so the array still holds the
(now disposed) wireframe material afterwards, while the single-material
branch of the same block does restore the original. -/
theorem c1_array_material_restore_slip :
    restorePrevMaterial (JSlot.arr [{ matId := 100, wireframe := true, disposed := false }])
        (JSlot.arr [{ matId := 7, wireframe := false, disposed := false }]) =
      JSlot.arr [{ matId := 100, wireframe := true, disposed := true }] ∧
    restorePrevMaterial (JSlot.single { matId := 100, wireframe := true, disposed := false })
        (JSlot.single { matId := 7, wireframe := false, disposed := false }) =
      JSlot.single { matId := 7, wireframe := false, disposed := false } ∧
    JSlot.arr [{ matId := 100, wireframe := true, disposed := true }] ≠
      JSlot.arr [{ matId := 7, wireframe := false, disposed := false }] := by
  refine ⟨rfl, rfl, by decide⟩

/-- Claim C3: the status classification is the same pure function of
the uuid's character codes at the hover site, the part-menu site and
the per-frame particle-tint site; the underlying hash stays in the
signed 32-bit range, the category is always below 3, and the particle
tint color agrees with the hover status color for every uuid. -/
theorem c3_status_classification_deterministic (uuid : List ℕ) :
    statusCategoryMenu uuid = statusCategoryHover uuid ∧
    statusCategoryParticle uuid = statusCategoryHover uuid ∧
    statusCategoryHover uuid < 3 ∧
    -2 ^ 31 ≤ jsHashHover uuid ∧ jsHashHover uuid < 2 ^ 31 ∧
    particleTargetColor uuid = hoverStatusColor uuid := by
  have hb := jsHash_fold_bounds uuid 0 (by norm_num) (by norm_num)
  refine ⟨rfl, rfl, Nat.mod_lt _ (by norm_num), hb.1, hb.2, ?_⟩
  exact (hoverColorN_eq_particleColorN (jsHashHover uuid).natAbs).symm

/-- Claim C4: the helper/ancestry exclusion runs before any geometric
check in both filters — a chain-rejected candidate is invalid with no
assumption on its geometry —, the two filters are one and the same
test, and the filter of either event handler returns the first
candidate of the nearest-first intersection list that passes. -/
theorem c4_helper_exclusion_short_circuits (mm : ℚ) :
    (∀ p : PickNode, chainRejected p.chain = true →
      isValidHoverTargetB mm p = false ∧ isValidClickTargetB mm p = false) ∧
    isValidClickTargetB = isValidHoverTargetB ∧
    (∀ (L : List PickNode) (q : PickNode),
      L.find? (fun r => isValidHoverTargetB mm r) = some q →
      isValidHoverTargetB mm q = true ∧
      ∃ L₁ L₂, L = L₁ ++ q :: L₂ ∧ ∀ r ∈ L₁, isValidHoverTargetB mm r = false) ∧
    (∀ (L : List PickNode) (q : PickNode),
      L.find? (fun r => isValidClickTargetB mm r) = some q →
      isValidClickTargetB mm q = true ∧
      ∃ L₁ L₂, L = L₁ ++ q :: L₂ ∧ ∀ r ∈ L₁, isValidClickTargetB mm r = false) := by
  refine ⟨?_, rfl, ?_, ?_⟩
  · intro p h
    cases hm : p.isMesh <;>
      simp [isValidHoverTargetB, isValidClickTargetB, h, hm]
  · intro L q h
    exact findFirst_spec _ L q h
  · intro L q h
    exact findFirst_spec _ L q h

set_option maxRecDepth 100000 in
/-- Witness for C4 on a concrete scene: a big, geometrically valid mesh
named after the hover light is rejected by both filters, and the first
passing candidate of a two-element pick list is returned. -/
theorem c4_helper_exclusion_short_circuits_witness :
    chainRejected helperNode.chain = true ∧
    (isValidHoverTargetB 100 helperNode = false ∧
      isValidClickTargetB 100 helperNode = false) ∧
    (isValidHoverTargetB 100 doorNode = true ∧
      ∃ L₁ L₂, [helperNode, doorNode] = L₁ ++ doorNode :: L₂ ∧
        ∀ r ∈ L₁, isValidHoverTargetB 100 r = false) := by
  have h := c4_helper_exclusion_short_circuits 100
  exact ⟨by decide, h.1 helperNode (by decide),
    h.2.2.1 [helperNode, doorNode] doorNode (by with_unfolding_all decide)⟩

/-- Claim C5: for a mesh candidate that survives the name/ancestry
exclusion, rejection is exactly the stated geometric degeneracy
condition, in both filters. -/
theorem c5_geometric_degeneracy_exact (mm : ℚ) (p : PickNode)
    (hm : p.isMesh = true) (hc : chainRejected p.chain = false) :
    (isValidHoverTargetB mm p = false ↔
      ((max (max p.sizeX p.sizeY) p.sizeZ < mm * (3 / 100) ∧
          p.centerDist < mm * (5 / 100)) ∨
        (0 < p.vertCount ∧ p.vertCount < 30))) ∧
    isValidClickTargetB mm p = isValidHoverTargetB mm p := by
  have hgeom : geomDegenerateReject mm p = true ↔
      ((max (max p.sizeX p.sizeY) p.sizeZ < mm * (3 / 100) ∧
          p.centerDist < mm * (5 / 100)) ∨
        (0 < p.vertCount ∧ p.vertCount < 30)) := by
    simp only [geomDegenerateReject, Bool.or_eq_true, Bool.and_eq_true,
      decide_eq_true_eq]
    tauto
  refine ⟨?_, rfl⟩
  cases hg : geomDegenerateReject mm p
  · have hv : isValidHoverTargetB mm p = true := by
      simp [isValidHoverTargetB, hm, hc, hg]
    rw [hv]
    constructor
    · intro h; exact absurd h (by simp)
    · intro hr; exact absurd (hgeom.mpr hr) (by simp [hg])
  · have hv : isValidHoverTargetB mm p = false := by
      simp [isValidHoverTargetB, hm, hc, hg]
    rw [hv]
    exact iff_of_true rfl (hgeom.mp hg)

/-- Witness for C5: the concrete sliver `tinyNode` fails the size and
near-origin thresholds of a scale hint of 100 and is rejected. -/
theorem c5_geometric_degeneracy_exact_witness :
    tinyNode.isMesh = true ∧ chainRejected tinyNode.chain = false ∧
    isValidHoverTargetB 100 tinyNode = false := by
  refine ⟨rfl, by decide, ?_⟩
  exact (c5_geometric_degeneracy_exact 100 tinyNode rfl (by decide)).1.mpr
    (Or.inl (by norm_num [tinyNode]))

/-- Claim C9: while the scene root is unpopulated, the pick is empty
and pointer-move and scene-click events leave the machine Idle; the
handlers are total functions, so no error can be raised. -/
theorem c9_unloaded_scene_noop (e : Env) (now x y : ℚ) (L : List PickNode)
    (b : Bool) (s : IState) (hload : e.modelLoaded = false) (hidle : IsIdle s) :
    pick e.modelLoaded L = [] ∧
    IsIdle (onMouseMove e now L x y s) ∧
    IsIdle (onMouseClick e ClickTarget.canvas L b s) := by
  obtain ⟨h1, h2, h3⟩ := hidle
  refine ⟨by simp [pick, hload], ?_, ?_⟩
  · simp [onMouseMove, h3, hload, IsIdle, h1, h2]
  · cases b <;> simp [onMouseClick, h3, hload, IsIdle, h1, h2]

/-- Witness for C9: the initial Idle state before the model has loaded,
a nonempty raw intersection list notwithstanding. -/
theorem c9_unloaded_scene_noop_witness :
    eUnloaded.modelLoaded = false ∧ IsIdle initState ∧
    (pick eUnloaded.modelLoaded [doorNode] = [] ∧
      IsIdle (onMouseMove eUnloaded 0 [doorNode] 3 4 initState) ∧
      IsIdle (onMouseClick eUnloaded ClickTarget.canvas [doorNode] false initState)) :=
  ⟨rfl, ⟨rfl, rfl, rfl⟩,
    c9_unloaded_scene_noop eUnloaded 0 3 4 [doorNode] false initState rfl ⟨rfl, rfl, rfl⟩⟩

/-- Claim C10: while a target is locked (menu open), a scene click is
ignored — the result does not depend on the intersection list (no
raycast is consulted) and equals the pre-click state —, a click on
another UI control is ignored, the backdrop click runs exactly the
close request, and for every click the locked identity either stays or
becomes none, never another node. -/
theorem c10_click_ignored_while_locked (e : Env) (s : IState)
    (hm : s.menuVisible = true) :
    (∀ L b, onMouseClick e ClickTarget.canvas L b s = s) ∧
    (∀ L b, onMouseClick e ClickTarget.backdrop L b s = hidePartMenu s) ∧
    (∀ L b, onMouseClick e ClickTarget.otherUI L b s = s) ∧
    (hidePartMenu s).clicked = none ∧
    (∀ tgt L b, (onMouseClick e tgt L b s).clicked = s.clicked ∨
      (onMouseClick e tgt L b s).clicked = none) := by
  refine ⟨?_, fun _ _ => rfl, fun _ _ => rfl, ?_, ?_⟩
  · intro L b
    simp [onMouseClick, hm]
  · simp [hidePartMenu]
  · intro tgt L b
    cases tgt with
    | canvas => left; simp [onMouseClick, hm]
    | backdrop => right; simp [onMouseClick, hidePartMenu]
    | otherUI => left; rfl

/-- While the menu is open and the hovered mesh is the clicked mesh, a
pointer move only rewrites the menu follow target. -/
theorem onMouseMove_menu_frozen (e : Env) (now : ℚ) (L : List PickNode)
    (x y : ℚ) (s : IState) (a : ℕ) (hm : s.menuVisible = true)
    (hh : s.hovered = some a) (hc : s.clicked = some a) :
    onMouseMove e now L x y s =
      { s with follow := menuFollowTargetOf e.winW e.winH x y } := by
  simp [onMouseMove, hm, hh, hc]

/-- Fold form of the frozen-hover argument, by induction over the event
list. -/
theorem c2_fold_frozen (e : Env) (a : ℕ) :
    ∀ (evs : List (ℚ × List PickNode × ℚ × ℚ)) (s : IState),
      s.menuVisible = true → s.hovered = some a → s.clicked = some a →
      (let r := evs.foldl
        (fun st ev => onMouseMove e ev.1 ev.2.1 ev.2.2.1 ev.2.2.2 st) s
       r.hovered = some a ∧ r.clicked = some a ∧ r.menuVisible = true ∧
       r.mats = s.mats ∧ r.origMat = s.origMat ∧ r.clickedOrig = s.clickedOrig ∧
       r.autoRotate = s.autoRotate ∧ r.autoRotateSaved = s.autoRotateSaved ∧
       r.helper = s.helper ∧ r.animCorners = s.animCorners ∧ r.anim = s.anim ∧
       r.mouse = s.mouse) := by
  intro evs
  induction evs with
  | nil =>
      intro s hm hh hc
      exact ⟨hh, hc, hm, rfl, rfl, rfl, rfl, rfl, rfl, rfl, rfl, rfl⟩
  | cons ev evs ih =>
      intro s hm hh hc
      have hstep := onMouseMove_menu_frozen e ev.1 ev.2.1 ev.2.2.1 ev.2.2.2
        s a hm hh hc
      rw [List.foldl_cons, hstep]
      exact ih { s with follow := menuFollowTargetOf e.winW e.winH ev.2.2.1 ev.2.2.2 }
        hm hh hc

/-- Claim C2 (amended): once a target `a` is locked with the hovered
mesh equal to the locked mesh — the case produced when hover and click
resolved the same node —, every subsequent pointer-move leaves the
hovered identity `some a` and changes nothing but the UI-only menu
follow target; materials, stored originals, helper, corner indicators,
animation job, auto-rotation and even the raycast mouse coordinates are
untouched. (If the lock began with a hovered mesh different from the
locked one, the code instead clears that stale hover to `none`; see the
counterexample.) -/
theorem c2_lock_freezes_hover (e : Env) (s : IState) (a : ℕ)
    (hm : s.menuVisible = true) (hh : s.hovered = some a)
    (hc : s.clicked = some a) (evs : List (ℚ × List PickNode × ℚ × ℚ)) :
    (let r := evs.foldl
      (fun st ev => onMouseMove e ev.1 ev.2.1 ev.2.2.1 ev.2.2.2 st) s
     r.hovered = some a ∧ r.clicked = some a ∧ r.menuVisible = true ∧
     r.mats = s.mats ∧ r.origMat = s.origMat ∧ r.clickedOrig = s.clickedOrig ∧
     r.autoRotate = s.autoRotate ∧ r.autoRotateSaved = s.autoRotateSaved ∧
     r.helper = s.helper ∧ r.animCorners = s.animCorners ∧ r.anim = s.anim ∧
     r.mouse = s.mouse) :=
  c2_fold_frozen e a evs s hm hh hc

set_option maxRecDepth 1000000 in
/-- Witness for C2 (amended) on the concrete lock trace `ds2` (door
hovered, then clicked) and two further pointer moves. -/
theorem c2_lock_freezes_hover_witness :
    ds2.menuVisible = true ∧ ds2.hovered = some 1 ∧ ds2.clicked = some 1 ∧
    (let r := [((5 : ℚ), [wheelNode], (7 : ℚ), (8 : ℚ)),
               ((6 : ℚ), ([] : List PickNode), (9 : ℚ), (2 : ℚ))].foldl
      (fun st ev => onMouseMove e0 ev.1 ev.2.1 ev.2.2.1 ev.2.2.2 st) ds2
     r.hovered = some 1 ∧ r.clicked = some 1 ∧ r.menuVisible = true ∧
     r.mats = ds2.mats ∧ r.origMat = ds2.origMat ∧
     r.clickedOrig = ds2.clickedOrig ∧ r.autoRotate = ds2.autoRotate ∧
     r.autoRotateSaved = ds2.autoRotateSaved ∧ r.helper = ds2.helper ∧
     r.animCorners = ds2.animCorners ∧ r.anim = ds2.anim ∧
     r.mouse = ds2.mouse) :=
  ⟨by with_unfolding_all decide, by with_unfolding_all decide,
   by with_unfolding_all decide,
   c2_lock_freezes_hover e0 ds2 1 (by with_unfolding_all decide)
     (by with_unfolding_all decide) (by with_unfolding_all decide) _⟩

set_option maxRecDepth 1000000 in
/-- Counterexample to C2 as stated: the hover raycast resolved the
wheel, the click raycast (after the model kept auto-rotating between
the two events) resolved the door, so the lock starts with
`hovered = some 2 ≠ clicked = some 1`; the first pointer move during
the lock then changes the hovered identity to `none`, and it never
equals `some 1` (the locked target) at all. -/
theorem c2_counterexample_stale_hover :
    cs2.menuVisible = true ∧ cs2.clicked = some 1 ∧ cs2.hovered = some 2 ∧
    cs3.menuVisible = true ∧ cs3.clicked = some 1 ∧ cs3.hovered = none := by
  with_unfolding_all decide

/-- Claim C8 (amended): from a locked state on `a`, a close request
(Escape, or the backdrop click which runs the very same
`hidePartMenu`) hides the menu, clears the locked identity, resumes
auto-rotation to the state saved at lock time, and restores the locked
target's stored material exactly when it is not the currently hovered
mesh (the hover path owns the restore otherwise); a repeated close
request is a no-op, so the unlock happens exactly once. The hovered
identity is left unchanged rather than reset, so the machine lands in
the unlocked-but-still-hovering state, not necessarily Idle. -/
theorem c8_close_request_unlocks_once (s : IState) (a : ℕ)
    (hm : s.menuVisible = true) (hc : s.clicked = some a) :
    (onKeyEscape s).menuVisible = false ∧ (onKeyEscape s).clicked = none ∧
    (onKeyEscape s).autoRotate = s.autoRotateSaved ∧
    (onKeyEscape s).hovered = s.hovered ∧
    (∀ o, s.clickedOrig = some o → s.hovered ≠ some a →
      (onKeyEscape s).mats a = o) ∧
    onKeyEscape (onKeyEscape s) = onKeyEscape s ∧
    (∀ e L b, onMouseClick e ClickTarget.backdrop L b s = hidePartMenu s) ∧
    onKeyEscape s = hidePartMenu s := by
  have he : onKeyEscape s = hidePartMenu s := by simp [onKeyEscape, hm]
  have hfields : (hidePartMenu s).menuVisible = false ∧
      (hidePartMenu s).clicked = none ∧
      (hidePartMenu s).autoRotate = s.autoRotateSaved ∧
      (hidePartMenu s).hovered = s.hovered := by
    rcases hco : s.clickedOrig with _ | o
    · simp [hidePartMenu, hc, hco]
    · by_cases hhov : s.hovered = some a <;>
        simp [hidePartMenu, hc, hco, hhov]
  have hmats : ∀ o, s.clickedOrig = some o → s.hovered ≠ some a →
      (hidePartMenu s).mats a = o := by
    intro o hco hhov
    simp [hidePartMenu, hc, hco, hhov, Function.update_same]
  have hidem : onKeyEscape (hidePartMenu s) = hidePartMenu s := by
    simp [onKeyEscape, hfields.1]
  rw [he]
  exact ⟨hfields.1, hfields.2.1, hfields.2.2.1, hfields.2.2.2, hmats,
    hidem, fun _ _ _ => rfl, rfl⟩

set_option maxRecDepth 1000000 in
/-- Witness for C8 (amended) on the concrete lock trace `ds2`. -/
theorem c8_close_request_unlocks_once_witness :
    ds2.menuVisible = true ∧ ds2.clicked = some 1 ∧
    ((onKeyEscape ds2).menuVisible = false ∧ (onKeyEscape ds2).clicked = none ∧
     (onKeyEscape ds2).autoRotate = ds2.autoRotateSaved ∧
     (onKeyEscape ds2).hovered = ds2.hovered ∧
     (∀ o, ds2.clickedOrig = some o → ds2.hovered ≠ some 1 →
       (onKeyEscape ds2).mats 1 = o) ∧
     onKeyEscape (onKeyEscape ds2) = onKeyEscape ds2 ∧
     (∀ e L b, onMouseClick e ClickTarget.backdrop L b ds2 = hidePartMenu ds2) ∧
     onKeyEscape ds2 = hidePartMenu ds2) :=
  ⟨by with_unfolding_all decide, by with_unfolding_all decide,
   c8_close_request_unlocks_once ds2 1 (by with_unfolding_all decide)
     (by with_unfolding_all decide)⟩

set_option maxRecDepth 1000000 in
/-- Counterexample to C8 as stated: closing the menu from the lock on
the door (which was hovered when clicked) leaves the hovered identity
`some 1`, so the machine is not Idle, and the door's material is still
the status wireframe, not its restored original (the restore is skipped
because the locked mesh is still the hovered mesh). -/
theorem c8_counterexample_not_idle :
    ds3.menuVisible = false ∧ ds3.clicked = none ∧ ds3.hovered = some 1 ∧
    ¬ IsIdle ds3 ∧ ds3.mats 1 = MMat.wire 0xffd700 ∧
    ds3.mats 1 ≠ MMat.base 1 := by
  have hh : ds3.hovered = some 1 := by with_unfolding_all decide
  have hmat : ds3.mats 1 = MMat.wire 0xffd700 := by with_unfolding_all rfl
  refine ⟨by with_unfolding_all decide, by with_unfolding_all decide, hh, ?_,
    hmat, ?_⟩
  · intro h
    simp [IsIdle, hh] at h
  · rw [hmat]
    decide

/-- Claim C6: with a running reveal job (scales 0 → 1) and a bound
helper, the animation uses the 200 ms duration and the ease-out cubic
`1 - (1 - t)^3` of the elapsed fraction while running, and once
`now >= startTime + duration` the job is removed (`isAnimating` drops)
and the helper's and every corner indicator's scale is snapped to
exactly 1. -/
theorem c6_bounding_reveal_animation (now : ℚ) (s : IState) (hp : BBHelper)
    (ha : s.anim.isAnimating = true) (h0 : s.anim.startScale = 0)
    (h1 : s.anim.targetScale = 1) (hh : s.helper = some hp) :
    bbDuration = 200 ∧
    (s.anim.startTime + bbDuration ≤ now →
      ((animateBBoxTick now s).anim.isAnimating = false ∧
       (animateBBoxTick now s).helper = some { hp with scale := 1 } ∧
       ∀ c ∈ (animateBBoxTick now s).animCorners, c.scale = 1)) ∧
    (s.anim.startTime ≤ now → now < s.anim.startTime + bbDuration →
      ((animateBBoxTick now s).anim.isAnimating = true ∧
       (animateBBoxTick now s).helper =
         some { hp with
           scale := easeOutCubic ((now - s.anim.startTime) / bbDuration) } ∧
       ∀ c ∈ (animateBBoxTick now s).animCorners,
         c.scale = easeOutCubic ((now - s.anim.startTime) / bbDuration))) := by
  have hd : (0 : ℚ) < bbDuration := by norm_num [bbDuration]
  refine ⟨rfl, ?_, ?_⟩
  · intro hdone
    have hprog : (1 : ℚ) ≤ (now - s.anim.startTime) / bbDuration := by
      rw [le_div_iff₀ hd]
      linarith
    have hmin : min ((now - s.anim.startTime) / bbDuration) 1 = 1 :=
      min_eq_right hprog
    refine ⟨?_, ?_, ?_⟩
    · simp [animateBBoxTick, ha, hh, hmin]
    · simp [animateBBoxTick, ha, hh, hmin]
    · intro c hc
      simp [animateBBoxTick, ha, hh, hmin, List.mem_map] at hc
      obtain ⟨c₀, _, rfl⟩ := hc
      rfl
  · intro hstart hrun
    have hlt : (now - s.anim.startTime) / bbDuration < 1 := by
      rw [div_lt_one hd]
      linarith
    have hmin : min ((now - s.anim.startTime) / bbDuration) 1 =
        (now - s.anim.startTime) / bbDuration :=
      min_eq_left (le_of_lt hlt)
    have hnotdone : ¬ (1 : ℚ) ≤ (now - s.anim.startTime) / bbDuration :=
      not_le.mpr hlt
    have hcur : s.anim.startScale +
        (s.anim.targetScale - s.anim.startScale) *
          easeOutCubic ((now - s.anim.startTime) / bbDuration) =
        easeOutCubic ((now - s.anim.startTime) / bbDuration) := by
      rw [h0, h1]
      ring
    refine ⟨?_, ?_, ?_⟩
    · simp [animateBBoxTick, ha, hh, hmin, hnotdone]
    · simp [animateBBoxTick, ha, hh, hmin, hnotdone, hcur]
    · intro c hc
      simp [animateBBoxTick, ha, hh, hmin, hnotdone, List.mem_map] at hc
      obtain ⟨c₀, _, rfl⟩ := hc
      simp [hcur]

/-- Witness for C6 on the concrete mid-animation state `wsAnim`: a tick
at 100 ms shows the eased scale `1 - (1 - 1/2)^3 = 7/8`, a tick at
300 ms completes and snaps the scale to exactly 1. -/
theorem c6_bounding_reveal_animation_witness :
    wsAnim.anim.isAnimating = true ∧ wsAnim.helper = some { owner := 1, scale := 0 } ∧
    ((animateBBoxTick 300 wsAnim).anim.isAnimating = false ∧
      (animateBBoxTick 300 wsAnim).helper = some { owner := 1, scale := 1 } ∧
      ∀ c ∈ (animateBBoxTick 300 wsAnim).animCorners, c.scale = 1) ∧
    ((animateBBoxTick 100 wsAnim).helper =
      some { owner := 1, scale := easeOutCubic ((100 - wsAnim.anim.startTime) / bbDuration) } ∧
      easeOutCubic ((100 - wsAnim.anim.startTime) / bbDuration) = 7 / 8) := by
  have h := c6_bounding_reveal_animation 300 wsAnim { owner := 1, scale := 0 }
    rfl rfl rfl rfl
  have h' := c6_bounding_reveal_animation 100 wsAnim { owner := 1, scale := 0 }
    rfl rfl rfl rfl
  refine ⟨rfl, rfl, h.2.1 (by norm_num [wsAnim, initState, bbDuration]), ?_, ?_⟩
  · exact (h'.2.2 (by norm_num [wsAnim, initState])
      (by norm_num [wsAnim, initState, bbDuration])).2.1
  · show easeOutCubic ((100 - (0 : ℚ)) / 200) = 7 / 8
    norm_num [easeOutCubic]

/-- One animation tick never moves the helper or a corner indicator to
another owner. -/
theorem animateBBoxTick_preserves_owned (b : ℕ) (t : ℚ) (st : IState)
    (h : OwnedBy b st) : OwnedBy b (animateBBoxTick t st) := by
  by_cases hc : (st.anim.isAnimating = true ∧ st.helper ≠ none)
  · constructor
    · intro hp hhp
      rcases hst : st.helper with _ | hp₀
      · simp [animateBBoxTick, hc, hst] at hhp
      · have hb := h.1 hp₀ hst
        by_cases hdone : (1 : ℚ) ≤ min ((t - st.anim.startTime) / bbDuration) 1 <;>
          · simp [animateBBoxTick, hc, hst, hdone] at hhp
            rw [← hhp]
            exact hb
    · intro c hcm
      by_cases hdone : (1 : ℚ) ≤ min ((t - st.anim.startTime) / bbDuration) 1 <;>
        · simp [animateBBoxTick, hc, hdone, List.mem_map] at hcm
          obtain ⟨c₀, hc₀, rfl⟩ := hcm
          exact h.2 c₀ hc₀
  · simp only [animateBBoxTick]
    rw [if_neg ?_]
    · exact h
    · intro hcontra
      exact hc ⟨hcontra.1, hcontra.2⟩

/-- Folding any list of ticks keeps the ownership invariant. -/
theorem foldl_ticks_preserves_owned (b : ℕ) (ts : List ℚ) :
    ∀ st, OwnedBy b st →
      OwnedBy b (ts.foldl (fun s' t => animateBBoxTick t s') st) := by
  induction ts with
  | nil => intro st h; exact h
  | cons t ts ih =>
      intro st h
      exact ih _ (animateBBoxTick_preserves_owned b t st h)

/-- Claim C7: entering hover on `b` (here `pk`) before the previous
target `a`'s reveal animation completed replaces the single animation
job — the job restarts at the new time with the helper and all eight
corner indicators owned by `b` — and every subsequent animation tick,
however many and at whatever times, only ever updates markers owned by
`b`: no scale update or final-state snap is ever applied to a marker of
`a`. -/
theorem c7_superseded_job_discarded (pk : PickNode) (a : ℕ) (now : ℚ)
    (s : IState) (hne : pk.nid ≠ a) :
    (hoverEnter pk now s).hovered = some pk.nid ∧
    (hoverEnter pk now s).anim.isAnimating = true ∧
    (hoverEnter pk now s).anim.startTime = now ∧
    ∀ ts : List ℚ,
      (∀ hp, (ts.foldl (fun st t => animateBBoxTick t st)
          (hoverEnter pk now s)).helper = some hp →
        hp.owner = pk.nid ∧ hp.owner ≠ a) ∧
      (∀ c ∈ (ts.foldl (fun st t => animateBBoxTick t st)
          (hoverEnter pk now s)).animCorners,
        c.owner = pk.nid ∧ c.owner ≠ a) := by
  have howned : OwnedBy pk.nid (hoverEnter pk now s) := by
    constructor
    · intro hp hhp
      have hhe : (hoverEnter pk now s).helper =
          some { owner := pk.nid, scale := 0 } := rfl
      rw [hhe] at hhp
      injection hhp with h'
      rw [← h']
    · intro c hcm
      have hce : (hoverEnter pk now s).animCorners =
          List.replicate 8 { owner := pk.nid, scale := 0 } := rfl
      rw [hce] at hcm
      rw [List.eq_of_mem_replicate hcm]
  refine ⟨rfl, rfl, rfl, ?_⟩
  intro ts
  have hf := foldl_ticks_preserves_owned pk.nid ts (hoverEnter pk now s) howned
  constructor
  · intro hp hhp
    have := hf.1 hp hhp
    exact ⟨this, this ▸ hne⟩
  · intro c hcm
    have := hf.2 c hcm
    exact ⟨this, this ▸ hne⟩

/-- Witness for C7: hovering the door at time 50 while the wheel's
reveal (started at 0 in `cs1`) is still mid-flight; after ticks at 100
and 300 the helper and corners belong to the door, never the wheel. -/
theorem c7_superseded_job_discarded_witness :
    doorNode.nid ≠ 2 ∧
    ((hoverEnter doorNode 50 cs1).hovered = some doorNode.nid ∧
     (hoverEnter doorNode 50 cs1).anim.isAnimating = true ∧
     (hoverEnter doorNode 50 cs1).anim.startTime = 50 ∧
     ∀ ts : List ℚ,
       (∀ hp, (ts.foldl (fun st t => animateBBoxTick t st)
           (hoverEnter doorNode 50 cs1)).helper = some hp →
         hp.owner = doorNode.nid ∧ hp.owner ≠ 2) ∧
       (∀ c ∈ (ts.foldl (fun st t => animateBBoxTick t st)
           (hoverEnter doorNode 50 cs1)).animCorners,
         c.owner = doorNode.nid ∧ c.owner ≠ 2)) :=
  ⟨by decide, c7_superseded_job_discarded doorNode 2 50 cs1 (by decide)⟩

set_option maxRecDepth 1000000 in
/-- Witness for C10 on the concrete locked state `ds2`. -/
theorem c10_click_ignored_while_locked_witness :
    ds2.menuVisible = true ∧
    ((∀ L b, onMouseClick e0 ClickTarget.canvas L b ds2 = ds2) ∧
     (∀ L b, onMouseClick e0 ClickTarget.backdrop L b ds2 = hidePartMenu ds2) ∧
     (∀ L b, onMouseClick e0 ClickTarget.otherUI L b ds2 = ds2) ∧
     (hidePartMenu ds2).clicked = none ∧
     (∀ tgt L b, (onMouseClick e0 tgt L b ds2).clicked = ds2.clicked ∨
       (onMouseClick e0 tgt L b ds2).clicked = none)) :=
  ⟨by with_unfolding_all decide,
   c10_click_ignored_while_locked e0 ds2 (by with_unfolding_all decide)⟩
